import Mathlib

/-!
Verification development for the `shend/simplesip` SIP endpoint.

The Go source is shallowly embedded: pure functions become Lean functions,
pointer-linked lists become inductive types (with `nil` for the nil pointer),
fallible or panicking operations return `Option`/`Except`, and external
collaborators (the gosip codec: parsing, serialization, tag generation,
address resolution, socket writes) are passed in as explicit function
parameters so theorems quantify over their behaviour.
-/

set_option autoImplicit false

namespace SimpleSip

/-- Param models the gosip `sip.Param` linked list (`Name`, `Value`, `Next *Param`);
the constructor `nil` models the nil pointer. -/
inductive Param where
  | nil : Param
  | mk (name : String) (value : String) (next : Param) : Param
deriving DecidableEq

/-- Param.get models gosip `(*Param).Get(name)`: a nil receiver yields nil,
otherwise the first node whose `Name` matches is returned. The Go method
returns the node pointer; the only field any caller in this repository reads
on a non-nil result is `.Value`, so the model returns that value, with `none`
standing for the nil pointer result. -/
def Param.get : Param → String → Option String
  | .nil, _ => none
  | .mk n v next, name => if n = name then some v else next.get name

/-- Param.has reports whether a `tag`-style parameter is present; it matches the
Go idiom `p.Get(name) != nil`. -/
def Param.has (p : Param) (name : String) : Bool :=
  (p.get name).isSome

/-- Via models the gosip `sip.Via` header; only the `Transport` field is read by
this repository's transport code. -/
structure Via where
  Transport : String
deriving DecidableEq

/-- Addr models the gosip `sip.Addr` used for the To and From headers; only the
`Param` list is read or written by this repository. -/
structure Addr where
  Param : Param
deriving DecidableEq

/-- SipMsg models the gosip `sip.Msg` structured message: the fields this
repository reads (method or status/phrase, Via, To, From, Call-ID, CSeq
method, payload). `Via` is a pointer in Go, hence `Option`; `Payload` is a
nilable interface, modelled as an optional byte list. -/
structure SipMsg where
  Method : String
  Status : Nat
  Phrase : String
  Via : Option Via
  To : Addr
  From : Addr
  CallID : String
  CSeqMethod : String
  Payload : Option (List Nat)
deriving DecidableEq

/-- IsResponse models gosip `(*Msg).IsResponse()`: a message is a response when
its status code is positive. -/
def IsResponse (m : SipMsg) : Bool :=
  decide (0 < m.Status)

/-- Message is `message.Message` from `message/message.go`: the envelope holding
the structured message plus transport name and source/destination address
strings. The `Respond` callback field is never invoked or constructed by any
code path modelled here; every operation copies it verbatim, so it is modelled
as an optional opaque marker (`none` for the nil function pointer). -/
structure Message where
  Msg : SipMsg
  Transport : String
  Source : String
  Destination : String
  Respond : Option Unit
deriving DecidableEq

/-- Clone is `(*Message).Clone` from `message/message.go`: a new envelope whose
structured message is `m.Msg.Copy()` (a deep copy, which on pure values is the
value itself) and whose remaining fields are copied. -/
def Clone (m : Message) : Message :=
  { Msg := m.Msg
    Transport := m.Transport
    Source := m.Source
    Destination := m.Destination
    Respond := m.Respond }

/-- GetToTag is `(*Message).GetToTag` from `message/message.go`: it returns ""
when the To parameter list is nil, and otherwise evaluates
`toParam.Get("tag").Value`. When the list is non-nil but has no `tag`
parameter, `Get` returns the nil pointer and the `.Value` access panics;
the panic is modelled as `none`. -/
def GetToTag (m : Message) : Option String :=
  match m.Msg.To.Param with
  | .nil => some ""
  | .mk n v next => (Param.mk n v next).get "tag"

/-- GetFromTag is `(*Message).GetFromTag` from `message/message.go`, symmetric
to `GetToTag` on the From header. -/
def GetFromTag (m : Message) : Option String :=
  match m.Msg.From.Param with
  | .nil => some ""
  | .mk n v next => (Param.mk n v next).get "tag"

/-- stringsJoin models Go `strings.Join(elems, sep)`: the elements concatenated
with the separator between consecutive elements. -/
def stringsJoin : List String → String → String
  | [], _ => ""
  | e :: rest, sep => rest.foldl (fun acc s => acc ++ sep ++ s) e

/-- MakeDialogID is `MakeDialogID` from `message/message.go`:
`strings.Join([]string{callID, innerID, externalID}, "__")`. -/
def MakeDialogID (callID innerID externalID : String) : String :=
  stringsJoin [callID, innerID, externalID] "__"

/-- MakeDialogIDFromMessage is `(*Message).MakeDialogIDFromMessage` from
`message/message.go`: it errors when the Call-ID, the To tag or the From tag
is empty, in that order, and otherwise joins them. A `none` result models the
panic inherited from `GetToTag`/`GetFromTag` on a non-nil parameter list with
no `tag` entry. -/
def MakeDialogIDFromMessage (m : Message) : Option (Except String String) :=
  if m.Msg.CallID = "" then some (Except.error "missing Call-ID header")
  else
    match GetToTag m with
    | none => none
    | some toTag =>
      if toTag = "" then some (Except.error "missing tag param in To header")
      else
        match GetFromTag m with
        | none => none
        | some fromTag =>
          if fromTag = "" then some (Except.error "missing tag param in From header")
          else some (Except.ok (MakeDialogID m.Msg.CallID toTag fromTag))

/-- NewResponseFromRequest is the version in `response.go`: clone the request,
overwrite status and phrase, and swap source/destination simultaneously. -/
def NewResponseFromRequest (req : Message) (status : Nat) (phrase : String) : Message :=
  let res := Clone req
  let res1 := { res with Msg := { res.Msg with Status := status, Phrase := phrase } }
  { res1 with Destination := res1.Source, Source := res1.Destination }

/-- Addr.tag models the external gosip `(*Addr).Tag()` helper.
Modelled from the spec: tag generation (an opaque random token) is delegated
to the external collaborator, and an already-assigned tag is not overwritten;
the generated token is passed in as `freshTag` to keep the model
deterministic. The new parameter is prepended to the list. -/
def Addr.tag (freshTag : String) (a : Addr) : Addr :=
  if a.Param.has "tag" then a
  else { a with Param := Param.mk "tag" freshTag a.Param }

/-- NewResponseFromRequestP0 is the variant of `NewResponseFromRequest` found in
the second source file of the root package (`src/unnamed/part_000`): identical
to the `response.go` version except that, when the request's To header carries
no tag (`req.GetToTag() == ""`), it generates one on the reply's To header via
`res.Msg.To.Tag()`. A `none` result models the panic of `GetToTag` on a
non-nil To parameter list without a `tag` entry. -/
def NewResponseFromRequestP0 (freshTag : String) (req : Message) (status : Nat)
    (phrase : String) : Option Message :=
  let res := Clone req
  let res1 := { res with Msg := { res.Msg with Status := status, Phrase := phrase } }
  match GetToTag req with
  | none => none
  | some t =>
    let res2 :=
      if t = "" then
        { res1 with Msg := { res1.Msg with To := Addr.tag freshTag res1.Msg.To } }
      else res1
    some { res2 with Destination := res2.Source, Source := res2.Destination }

/-- bytesTrim models Go `bytes.Trim(s, cutset)`: it removes the leading and
trailing bytes of `s` that occur in `cutset`. -/
def bytesTrim (s : List Nat) (cutset : List Nat) : List Nat :=
  (((s.dropWhile (fun b => cutset.contains b)).reverse.dropWhile
      (fun b => cutset.contains b)).reverse)

/-- parseAndHandle is `(*UDPTransport).parseAndHandle` from
`transport/conn.go`. The external codec's `ParseMsg` is passed in as
`parseMsg`. The result is the envelope handed to the dispatch hook `handler`,
or `none` when the datagram is absorbed (keep-alive, parse failure, missing
Via, or Via transport mismatch). The cutset `[13, 10]` is the bytes of
`"\r\n"`. -/
def parseAndHandle (parseMsg : List Nat → Except String Message) (data : List Nat)
    (src : String) : Option Message :=
  if data.length ≤ 4 ∧ bytesTrim data [13, 10] = [] then none
  else
    match parseMsg data with
    | Except.error _ => none
    | Except.ok msg =>
      match msg.Msg.Via with
      | none => none
      | some via =>
        if via.Transport ≠ "UDP" then none
        else some { msg with Transport := "UDP", Source := src }

/-- UDPMTUSize is the package variable `UDPMTUSize` from `transport/conn.go`
at its default value. -/
def UDPMTUSize : Nat := 1500

/-- WriteResult enumerates the outcomes of `(*UDPConnection).WriteMsg`:
the MTU-congestion error, an address-resolution error, a socket write error,
the zero-byte-write error, the short-write error, or success. -/
inductive WriteResult where
  | errMTUCongestion : WriteResult
  | errResolve (e : String) : WriteResult
  | errWrite (e : String) : WriteResult
  | errZeroBytes : WriteResult
  | errShortWrite : WriteResult
  | ok : WriteResult
deriving DecidableEq

/-- WriteMsg is `(*UDPConnection).WriteMsg` from `transport/conn.go`.
The external collaborators are passed in: `serialize` models
`msg.Msg.Append(&buf)` (the codec's serialization), `resolveUDPAddr` models
`net.ResolveUDPAddr("udp", dst)`, and `writeTo` models the socket send
returning the byte count `n`. The MTU check happens first, on the serialized
length, before resolution or sending. -/
def WriteMsg (serialize : SipMsg → List Nat)
    (resolveUDPAddr : String → Except String String)
    (writeTo : List Nat → String → Except String Nat)
    (msg : Message) : WriteResult :=
  let data := serialize msg.Msg
  if data.length > UDPMTUSize - 200 then WriteResult.errMTUCongestion
  else
    match resolveUDPAddr msg.Destination with
    | Except.error e => WriteResult.errResolve e
    | Except.ok raddr =>
      match writeTo data raddr with
      | Except.error e => WriteResult.errWrite e
      | Except.ok n =>
        if n = 0 then WriteResult.errZeroBytes
        else if n ≠ data.length then WriteResult.errShortWrite
        else WriteResult.ok

/-- listenPortsLookup models reading the Go map `listenPorts map[string][]int`
(as an association list) together with the `ok` of the comma-ok read:
`none` when the network key is absent. -/
def listenPortsLookup : List (String × List Nat) → String → Option (List Nat)
  | [], _ => none
  | (k, ps) :: rest, network => if k = network then some ps else listenPortsLookup rest network

/-- addListenPort is `(*Layer).addListenPort` from `transport/layer.go`.
The body runs only when the comma-ok read reports the network key absent
(`!ok`); in that case the map read yields nil, the slice is created empty and
the port appended, producing the single-port entry. When the key is present
nothing at all is recorded. -/
def addListenPort (lp : List (String × List Nat)) (network : String) (port : Nat) :
    List (String × List Nat) :=
  match listenPortsLookup lp network with
  | some _ => lp
  | none => lp ++ [(network, [port])]

/-- ASCIIToLower is `util.ASCIIToLower` from `util/util.go`, on Go strings
modelled as byte lists: each byte in `'A'..'Z'` (65..90) has 32 added
(`'a' - 'A'`), every other byte is written back unchanged. -/
def ASCIIToLower (s : List Nat) : List Nat :=
  s.map (fun c => if 65 ≤ c ∧ c ≤ 90 then c + 32 else c)

/-- NetworkToLower is `transport.NetworkToLower` from `transport/layer.go`:
a switch fast path for "UDP" ([85,68,80]), "TCP" ([84,67,80]),
"TLS" ([84,76,83]) and "WS" ([87,83]) returning "udp", "tcp", "tls", "ws",
with `util.ASCIIToLower` as the default branch. -/
def NetworkToLower (network : List Nat) : List Nat :=
  if network = [85, 68, 80] then [117, 100, 112]
  else if network = [84, 67, 80] then [116, 99, 112]
  else if network = [84, 76, 83] then [116, 108, 115]
  else if network = [87, 83] then [119, 115]
  else ASCIIToLower network

/-- RequestHandlerM is the model of a user-registered `message.RequestHandler`
(`func(req *Message) *Message`): it receives the envelope and returns an
optional reply. Side effects a user handler might perform through captured
state are outside the modelled write trace. -/
def RequestHandlerM : Type := Message → Option Message

/-- TracedHandler is a handler together with the outbound writes it performs
through `WriteResponse`: the pair of its returned reply and the list of
envelopes it writes to the transport layer. -/
def TracedHandler : Type := Message → Option Message × List Message

/-- lookupHandler models the Go map read `srv.requestHandlers[method]` with its
comma-ok flag, over an association-list view of the handler table. -/
def lookupHandler : List (String × RequestHandlerM) → String → Option RequestHandlerM
  | [], _ => none
  | (k, h) :: rest, m => if k = m then some h else lookupHandler rest m

/-- dispatchMethod is the dispatch-key computation in
`(*Server).handleRequest` (`server.go`): the CSeq method for a response-type
message, the message's own method for a request. -/
def dispatchMethod (m : Message) : String :=
  if IsResponse m.Msg then m.Msg.CSeqMethod else m.Msg.Method

/-- defaultRequestMiddleware is `(*Server).defaultRequestMiddleware`
(`server.go`): if the To header already has a `tag` parameter the request is
untouched; otherwise a freshly generated tag parameter (the external
`jartutil.GenerateTag()`, passed in as `freshTag`) is attached — as the To
parameter list itself when that list was nil, and otherwise by overwriting the
first node's `Next` pointer with it (dropping any further nodes, exactly as
the Go assignment `hToParam.Next = hToTagParam` does). -/
def defaultRequestMiddleware (freshTag : String) (req : Message) : Message :=
  let hToParam := req.Msg.To.Param
  if (hToParam.get "tag").isSome then req
  else
    let newParam :=
      match hToParam with
      | Param.nil => Param.mk "tag" freshTag Param.nil
      | Param.mk n v _ => Param.mk n v (Param.mk "tag" freshTag Param.nil)
    { req with Msg := { req.Msg with To := { req.Msg.To with Param := newParam } } }

/-- unhandledReply is the reply constructed inside
`(*Server).defaultUnhandledHandler`: `NewResponseFromRequest(req, 405,
"Method Not Allowed")` with the payload then set to nil. -/
def unhandledReply (req : Message) : Message :=
  let res := NewResponseFromRequest req 405 "Method Not Allowed"
  { res with Msg := { res.Msg with Payload := none } }

/-- defaultUnhandledHandler is `(*Server).defaultUnhandledHandler`
(`server.go`) in traced form: it writes the 405 reply through
`srv.WriteResponse` (one trace entry) and returns nil. -/
def defaultUnhandledHandler (req : Message) : Option Message × List Message :=
  (none, [unhandledReply req])

/-- getHandler is `(*Server).getHandler` (`server.go`): the registered handler
for the method when present (a user handler performs no writes in the modelled
trace), the default unhandled handler otherwise. -/
def getHandler (handlers : List (String × RequestHandlerM)) (method : String) :
    TracedHandler :=
  match lookupHandler handlers method with
  | some h => fun req => (h req, [])
  | none => defaultUnhandledHandler

/-- ResponseMiddlewareM models a `message.ResponseMiddleware`
(`func(res *Message) bool`) in traced form: from the handler's optional reply
it yields the `final` flag and the envelopes it writes. -/
def ResponseMiddlewareM : Type := Option Message → Bool × List Message

/-- defaultResponseMiddleware is `(*Server).defaultResponseMiddleware`
(`server.go`): it writes the reply through the transport layer only when the
reply is non-nil, and always returns true (terminal). -/
def defaultResponseMiddleware : ResponseMiddlewareM :=
  fun res =>
    match res with
    | some r => (true, [r])
    | none => (true, [])

/-- runResponseMiddlewares is the response-middleware loop of
`(*Server).handleRequest`: middlewares run in order until one returns true
(the loop checks `final` before each later iteration), accumulating their
writes. -/
def runResponseMiddlewares : List ResponseMiddlewareM → Option Message → List Message
  | [], _ => []
  | mid :: rest, res =>
    let fw := mid res
    fw.2 ++ (if fw.1 then [] else runResponseMiddlewares rest res)

/-- handleRequest is `(*Server).handleRequest` (`server.go`) in traced form:
run every request middleware in order, compute the dispatch key, pick the
handler (registered or fallback), invoke it, then run the response middlewares
on its result. The value returned is the list of envelopes written outbound
during processing; the Go function itself returns nil. The default server
configuration is `reqMids = [defaultRequestMiddleware]` and
`respMids = [defaultResponseMiddleware]`. -/
def handleRequest (reqMids : List (Message → Message))
    (handlers : List (String × RequestHandlerM))
    (respMids : List ResponseMiddlewareM) (req : Message) : List Message :=
  let req1 := reqMids.foldl (fun r mid => mid r) req
  let hres := getHandler handlers (dispatchMethod req1) req1
  hres.2 ++ runResponseMiddlewares respMids hres.1

/-- baseMsg is a concrete structured request used by witnesses: an INVITE with
a UDP Via, a tagless To, a From tagged "F1" and Call-ID "abc". -/
def baseMsg : SipMsg :=
  { Method := "INVITE"
    Status := 0
    Phrase := ""
    Via := some { Transport := "UDP" }
    To := { Param := Param.nil }
    From := { Param := Param.mk "tag" "F1" Param.nil }
    CallID := "abc"
    CSeqMethod := "INVITE"
    Payload := some [1, 2] }

/-- reqNoTag is a concrete inbound request envelope whose To header has a nil
parameter list (no tag). -/
def reqNoTag : Message :=
  { Msg := baseMsg
    Transport := "UDP"
    Source := "9.8.7.6:5060"
    Destination := "1.2.3.4:5060"
    Respond := none }

/-- reqWithTag is `reqNoTag` with the To header tagged "T1". -/
def reqWithTag : Message :=
  { reqNoTag with Msg := { baseMsg with To := { Param := Param.mk "tag" "T1" Param.nil } } }

/-- reqToNoTagParam is a request whose To header has a non-nil parameter list
that contains no tag parameter. -/
def reqToNoTagParam : Message :=
  { reqNoTag with Msg := { baseMsg with To := { Param := Param.mk "x" "y" Param.nil } } }

/-- reqFromNoTagParam is a request whose From header has a non-nil parameter
list that contains no tag parameter (and whose To header is tagged). -/
def reqFromNoTagParam : Message :=
  { reqNoTag with
    Msg := { baseMsg with
              To := { Param := Param.mk "tag" "T1" Param.nil }
              From := { Param := Param.mk "x" "y" Param.nil } } }

/-- acceptedEnv is the envelope the UDP receive path hands to the dispatch
hook when a datagram from "1.2.3.4:5060" parses to `reqWithTag`. -/
def acceptedEnv : Message :=
  { reqWithTag with Transport := "UDP", Source := "1.2.3.4:5060" }

/-- reqFoobar is a request for the unregistered method "FOOBAR". -/
def reqFoobar : Message :=
  { reqNoTag with Msg := { baseMsg with Method := "FOOBAR", CSeqMethod := "FOOBAR" } }

/-- witnessHandlers is a concrete handler table registering only INVITE. -/
def witnessHandlers : List (String × RequestHandlerM) :=
  [("INVITE", fun _ => none)]

/-- serializeBig is a codec serialization producing 1301 bytes, one over the
default MTU budget of 1300. -/
def serializeBig : SipMsg → List Nat := fun _ => List.replicate 1301 0

/-- serializeSmall is a codec serialization producing 3 bytes. -/
def serializeSmall : SipMsg → List Nat := fun _ => [1, 2, 3]

/-- resolveOk is an address resolution oracle that always succeeds. -/
def resolveOk : String → Except String String := fun s => Except.ok s

/-- writeToOk is a socket send oracle that reports a full write. -/
def writeToOk : List Nat → String → Except String Nat := fun d _ => Except.ok d.length

theorem defaultRequestMiddleware_source (freshTag : String) (req : Message) :
    (defaultRequestMiddleware freshTag req).Source = req.Source := by
  by_cases h : (req.Msg.To.Param.get "tag").isSome = true
  · simp [defaultRequestMiddleware, h]
  · simp [defaultRequestMiddleware, h]

/-- C6: `NewResponseFromRequest(request, status, phrase)` yields an envelope
whose source is the request's destination, whose destination is the request's
source, whose status and phrase are the given arguments, and whose structured
message is the (deep-copied) request message with only status and phrase
overwritten; the embedding is pure, so the original request is unchanged. -/
theorem C6_response_swaps_addresses (req : Message) (status : Nat) (phrase : String) :
    (NewResponseFromRequest req status phrase).Source = req.Destination ∧
    (NewResponseFromRequest req status phrase).Destination = req.Source ∧
    (NewResponseFromRequest req status phrase).Msg.Status = status ∧
    (NewResponseFromRequest req status phrase).Msg.Phrase = phrase ∧
    (NewResponseFromRequest req status phrase).Msg =
      { req.Msg with Status := status, Phrase := phrase } :=
  ⟨rfl, rfl, rfl, rfl, rfl⟩

/-- C8: a datagram of length at most 4 bytes whose content is empty after
trimming CR and LF is absorbed by `parseAndHandle`: no envelope reaches the
dispatch hook and, since this holds for every codec `parseMsg`, the codec's
behaviour is irrelevant (it is never consulted) and no outbound traffic is
produced. -/
theorem C8_keepalive_absorbed (parseMsg : List Nat → Except String Message)
    (data : List Nat) (src : String)
    (h1 : data.length ≤ 4) (h2 : bytesTrim data [13, 10] = []) :
    parseAndHandle parseMsg data src = none := by
  unfold parseAndHandle
  rw [if_pos ⟨h1, h2⟩]

/-- C8 witness: the 2-byte keep-alive datagram `"\r\n"` ([13, 10]) is absorbed
even when the codec would happily parse it. -/
theorem C8_keepalive_absorbed_witness :
    parseAndHandle (fun _ => Except.ok reqWithTag) [13, 10] "1.2.3.4:5060" = none :=
  C8_keepalive_absorbed (fun _ => Except.ok reqWithTag) [13, 10] "1.2.3.4:5060"
    (by decide) (by decide)

/-- C10: the switch fast path of `NetworkToLower` agrees with the general
`ASCIIToLower` fallback on every byte string. -/
theorem C10_NetworkToLower_agrees (s : List Nat) :
    NetworkToLower s = ASCIIToLower s := by
  unfold NetworkToLower
  split_ifs with h1 h2 h3 h4
  · subst h1; decide
  · subst h2; decide
  · subst h3; decide
  · subst h4; decide
  · rfl

/-- C1 counterexample: a datagram accepted by the UDP receive path (parsed
successfully, Via present, Via transport matching) yields an envelope whose
`Transport` field is the uppercase "UDP", not the lowercase "udp" the claim
states. -/
theorem C1_lowercase_claim_counterexample :
    parseAndHandle (fun _ => Except.ok reqWithTag) [65, 65, 65, 65, 65] "1.2.3.4:5060"
      = some acceptedEnv ∧
    acceptedEnv.Transport ≠ "udp" := by
  constructor
  · rfl
  · decide

/-- C1 (amended): every envelope the UDP receive path passes to the dispatch
hook has its `Transport` field stamped to the uppercase protocol tag "UDP"
(the transport's `Network()` constant) and its `Source` field equal to the
sender's address string. -/
theorem C1_transport_stamp_amended (parseMsg : List Nat → Except String Message)
    (data : List Nat) (src : String) (env : Message)
    (h : parseAndHandle parseMsg data src = some env) :
    env.Transport = "UDP" ∧ env.Source = src := by
  unfold parseAndHandle at h
  split at h
  · exact Option.noConfusion h
  · split at h
    · exact Option.noConfusion h
    · split at h
      · exact Option.noConfusion h
      · split at h
        · exact Option.noConfusion h
        · injection h with h1
          subst h1
          exact ⟨rfl, rfl⟩

/-- C1 witness: the amended theorem applied to a concrete accepted datagram. -/
theorem C1_transport_stamp_amended_witness :
    acceptedEnv.Transport = "UDP" ∧ acceptedEnv.Source = "1.2.3.4:5060" :=
  C1_transport_stamp_amended (fun _ => Except.ok reqWithTag) [65, 65, 65, 65, 65]
    "1.2.3.4:5060" acceptedEnv (by rfl)

/-- C2: the code drops the port of any later `listen` on an already-registered
network. Registering port 5060 and then port 5061 under "udp" leaves only 5060
in the bookkeeping (while a duplicate registration of 5060 indeed adds no
entry), contradicting the claim that a new port under an already-registered
network is still recorded. -/
theorem C2_addListenPort_drops_second_port :
    addListenPort (addListenPort [] "udp" 5060) "udp" 5061 = [("udp", [5060])] ∧
    addListenPort (addListenPort [] "udp" 5060) "udp" 5060 = [("udp", [5060])] ∧
    listenPortsLookup (addListenPort (addListenPort [] "udp" 5060) "udp" 5061) "udp"
      = some [5060] :=
  ⟨rfl, rfl, rfl⟩

/-- C5: `WriteMsg` fails with the MTU-congestion error exactly when the
serialized size exceeds `UDPMTUSize - 200`; the result in the oversize case is
the same for every resolution and send oracle, so the failure happens before
any address resolution or socket send, and within budget no MTU error is
ever returned. -/
theorem C5_mtu_guard (serialize : SipMsg → List Nat)
    (resolveUDPAddr : String → Except String String)
    (writeTo : List Nat → String → Except String Nat) (msg : Message) :
    ((serialize msg.Msg).length > UDPMTUSize - 200 →
      WriteMsg serialize resolveUDPAddr writeTo msg = WriteResult.errMTUCongestion) ∧
    ((serialize msg.Msg).length ≤ UDPMTUSize - 200 →
      WriteMsg serialize resolveUDPAddr writeTo msg ≠ WriteResult.errMTUCongestion) := by
  constructor
  · intro hbig
    unfold WriteMsg
    rw [if_pos hbig]
  · intro hsmall
    unfold WriteMsg
    rw [if_neg (by omega)]
    split
    · exact fun hcon => WriteResult.noConfusion hcon
    · split
      · exact fun hcon => WriteResult.noConfusion hcon
      · split
        · exact fun hcon => WriteResult.noConfusion hcon
        · split
          · exact fun hcon => WriteResult.noConfusion hcon
          · exact fun hcon => WriteResult.noConfusion hcon

/-- C5 witness: a 1301-byte serialization hits the MTU-congestion error and a
3-byte serialization does not, under concrete resolution and send oracles. -/
theorem C5_mtu_guard_witness :
    WriteMsg serializeBig resolveOk writeToOk reqWithTag = WriteResult.errMTUCongestion ∧
    WriteMsg serializeSmall resolveOk writeToOk reqWithTag ≠ WriteResult.errMTUCongestion :=
  ⟨(C5_mtu_guard serializeBig resolveOk writeToOk reqWithTag).1
      (by
        show (List.replicate 1301 (0 : Nat)).length > UDPMTUSize - 200
        rw [List.length_replicate]
        decide),
   (C5_mtu_guard serializeSmall resolveOk writeToOk reqWithTag).2 (by decide)⟩

/-- C7: for every message on which the tag getters are defined,
`MakeDialogIDFromMessage` returns the Call-ID, To-tag and From-tag joined by
"__" when all three are non-empty, and returns an error exactly when one of
the three components is the empty string. -/
theorem C7_dialog_id_join_and_errors (m : Message) (toTag fromTag : String)
    (hTo : GetToTag m = some toTag) (hFrom : GetFromTag m = some fromTag) :
    (m.Msg.CallID ≠ "" → toTag ≠ "" → fromTag ≠ "" →
      MakeDialogIDFromMessage m =
        some (Except.ok (m.Msg.CallID ++ "__" ++ toTag ++ "__" ++ fromTag))) ∧
    ((∃ e, MakeDialogIDFromMessage m = some (Except.error e)) ↔
      (m.Msg.CallID = "" ∨ toTag = "" ∨ fromTag = "")) := by
  constructor
  · intro h1 h2 h3
    simp only [MakeDialogIDFromMessage, if_neg h1, hTo, if_neg h2, hFrom, if_neg h3,
      MakeDialogID, stringsJoin, List.foldl, Option.some.injEq, Except.ok.injEq]
  · constructor
    · intro hex
      by_contra hno
      push_neg at hno
      obtain ⟨h1, h2, h3⟩ := hno
      obtain ⟨e, he⟩ := hex
      simp [MakeDialogIDFromMessage, h1, hTo, h2, hFrom, h3] at he
    · intro hor
      by_cases h1 : m.Msg.CallID = ""
      · exact ⟨"missing Call-ID header", by simp [MakeDialogIDFromMessage, h1]⟩
      · by_cases h2 : toTag = ""
        · exact ⟨"missing tag param in To header",
            by simp [MakeDialogIDFromMessage, h1, hTo, h2]⟩
        · by_cases h3 : fromTag = ""
          · exact ⟨"missing tag param in From header",
              by simp [MakeDialogIDFromMessage, h1, hTo, h2, hFrom, h3]⟩
          · rcases hor with h | h | h <;> contradiction

/-- C7 witness: Call-ID "abc" with To-tag "T1" and From-tag "F1" joins to
"abc__T1__F1". -/
theorem C7_dialog_id_join_and_errors_witness :
    MakeDialogIDFromMessage reqWithTag = some (Except.ok "abc__T1__F1") := by
  have h := (C7_dialog_id_join_and_errors reqWithTag "T1" "F1" (by decide) (by decide)).1
    (by decide) (by decide) (by decide)
  simpa using h

/-- C9: on a message whose To (resp. From) parameter list is non-nil but has
no "tag" entry, the tag getter has no defined result (`none`, modelling the
nil-pointer dereference of `.Value`), which propagates to
`MakeDialogIDFromMessage`; and whenever every present To/From parameter list
does include a tag, `MakeDialogIDFromMessage` is defined (`isSome`). -/
theorem C9_tag_lookup_partiality (m mb mc : Message)
    (hb1 : mb.Msg.To.Param ≠ Param.nil)
    (hb2 : mb.Msg.To.Param.get "tag" = none)
    (hb3 : mb.Msg.CallID ≠ "")
    (hc1 : mc.Msg.From.Param ≠ Param.nil)
    (hc2 : mc.Msg.From.Param.get "tag" = none)
    (h1 : m.Msg.To.Param = Param.nil ∨ (m.Msg.To.Param.get "tag").isSome = true)
    (h2 : m.Msg.From.Param = Param.nil ∨ (m.Msg.From.Param.get "tag").isSome = true) :
    GetToTag mb = none ∧
    MakeDialogIDFromMessage mb = none ∧
    GetFromTag mc = none ∧
    (MakeDialogIDFromMessage m).isSome = true := by
  have hToNone : GetToTag mb = none := by
    cases hp : mb.Msg.To.Param with
    | nil => exact absurd hp hb1
    | mk n v next =>
      rw [hp] at hb2
      simp [GetToTag, hp, hb2]
  have hFromNone : GetFromTag mc = none := by
    cases hp : mc.Msg.From.Param with
    | nil => exact absurd hp hc1
    | mk n v next =>
      rw [hp] at hc2
      simp [GetFromTag, hp, hc2]
  refine ⟨hToNone, ?_, hFromNone, ?_⟩
  · simp [MakeDialogIDFromMessage, hb3, hToNone]
  · have hto : ∃ t, GetToTag m = some t := by
      rcases h1 with hnil | hsome
      · exact ⟨"", by simp [GetToTag, hnil]⟩
      · cases hp : m.Msg.To.Param with
        | nil => exact ⟨"", by simp [GetToTag, hp]⟩
        | mk n v next =>
          rw [hp] at hsome
          obtain ⟨t, ht⟩ := Option.isSome_iff_exists.mp hsome
          exact ⟨t, by simp [GetToTag, hp, ht]⟩
    have hfm : ∃ f, GetFromTag m = some f := by
      rcases h2 with hnil | hsome
      · exact ⟨"", by simp [GetFromTag, hnil]⟩
      · cases hp : m.Msg.From.Param with
        | nil => exact ⟨"", by simp [GetFromTag, hp]⟩
        | mk n v next =>
          rw [hp] at hsome
          obtain ⟨f, hf⟩ := Option.isSome_iff_exists.mp hsome
          exact ⟨f, by simp [GetFromTag, hp, hf]⟩
    obtain ⟨t, ht⟩ := hto
    obtain ⟨f, hf⟩ := hfm
    by_cases hcid : m.Msg.CallID = ""
    · simp [MakeDialogIDFromMessage, hcid]
    · by_cases ht0 : t = ""
      · simp [MakeDialogIDFromMessage, hcid, ht, ht0]
      · by_cases hf0 : f = ""
        · simp [MakeDialogIDFromMessage, hcid, ht, ht0, hf, hf0]
        · simp [MakeDialogIDFromMessage, hcid, ht, ht0, hf, hf0]

/-- C9 witness: the theorem applied to a message with a tagless non-nil To
list, one with a tagless non-nil From list, and one satisfying the
precondition. -/
theorem C9_tag_lookup_partiality_witness :
    GetToTag reqToNoTagParam = none ∧
    MakeDialogIDFromMessage reqToNoTagParam = none ∧
    GetFromTag reqFromNoTagParam = none ∧
    (MakeDialogIDFromMessage reqWithTag).isSome = true :=
  C9_tag_lookup_partiality reqWithTag reqToNoTagParam reqFromNoTagParam
    (by decide) (by decide) (by decide) (by decide) (by decide) (by decide) (by decide)

/-- C3: `NewResponseFromRequest` in its tag-generating variant
(`src/unnamed/part_000`) puts the freshly generated tag on the reply's To
header when the request carried none, and keeps an already-present non-empty
To-tag unchanged. -/
theorem C3_reply_to_tag (freshTag : String) (req : Message) (status : Nat)
    (phrase : String) (_hfresh : freshTag ≠ "") :
    (req.Msg.To.Param = Param.nil →
      Option.bind (NewResponseFromRequestP0 freshTag req status phrase) GetToTag
        = some freshTag) ∧
    (∀ t, GetToTag req = some t → t ≠ "" →
      Option.bind (NewResponseFromRequestP0 freshTag req status phrase) GetToTag
        = some t) := by
  constructor
  · intro hnil
    have hget : GetToTag req = some "" := by simp [GetToTag, hnil]
    simp [NewResponseFromRequestP0, Clone, hget, Addr.tag, Param.has, hnil, Param.get,
      GetToTag]
  · intro t ht htne
    cases hp : req.Msg.To.Param with
    | nil =>
      have h0 : GetToTag req = some "" := by simp [GetToTag, hp]
      rw [ht] at h0
      exact absurd (Option.some.inj h0) htne
    | mk n v next =>
      have ht2 : (Param.mk n v next).get "tag" = some t := by
        simpa [GetToTag, hp] using ht
      simp [NewResponseFromRequestP0, Clone, GetToTag, hp, ht2, htne]

/-- C3 witness: with generated tag "z9", a reply to a tagless request carries
tag "z9" and a reply to a request tagged "T1" keeps "T1". -/
theorem C3_reply_to_tag_witness :
    Option.bind (NewResponseFromRequestP0 "z9" reqNoTag 180 "Ringing") GetToTag
      = some "z9" ∧
    Option.bind (NewResponseFromRequestP0 "z9" reqWithTag 200 "OK") GetToTag
      = some "T1" :=
  ⟨(C3_reply_to_tag "z9" reqNoTag 180 "Ringing" (by decide)).1 (by decide),
   (C3_reply_to_tag "z9" reqWithTag 200 "OK" (by decide)).2 "T1" (by decide) (by decide)⟩

/-- C4: on an inbound request whose dispatch method has no registered handler,
the default pipeline writes exactly one outbound envelope: the fallback's 405
"Method Not Allowed" reply with nil payload addressed to the request's source.
The fallback returns nothing, so the default response middleware (which
writes only non-nil results) adds no second reply; the statement holds for
every handler table lacking the method, so no user handler influences the
outcome. -/
theorem C4_unregistered_method_single_405 (freshTag : String)
    (handlers : List (String × RequestHandlerM)) (req : Message)
    (h : lookupHandler handlers
        (dispatchMethod (defaultRequestMiddleware freshTag req)) = none) :
    handleRequest [defaultRequestMiddleware freshTag] handlers
        [defaultResponseMiddleware] req
      = [unhandledReply (defaultRequestMiddleware freshTag req)] ∧
    (getHandler handlers (dispatchMethod (defaultRequestMiddleware freshTag req))
        (defaultRequestMiddleware freshTag req)).1 = none ∧
    (unhandledReply (defaultRequestMiddleware freshTag req)).Destination = req.Source ∧
    (unhandledReply (defaultRequestMiddleware freshTag req)).Msg.Status = 405 ∧
    (unhandledReply (defaultRequestMiddleware freshTag req)).Msg.Phrase
      = "Method Not Allowed" ∧
    (unhandledReply (defaultRequestMiddleware freshTag req)).Msg.Payload = none := by
  have hg : getHandler handlers (dispatchMethod (defaultRequestMiddleware freshTag req))
      = defaultUnhandledHandler := by
    unfold getHandler
    rw [h]
  refine ⟨?_, ?_, ?_, rfl, rfl, rfl⟩
  · simp only [handleRequest, List.foldl]
    rw [hg]
    rfl
  · rw [hg]
    rfl
  · exact defaultRequestMiddleware_source freshTag req

/-- C4 witness: a "FOOBAR" request against a table registering only INVITE. -/
theorem C4_unregistered_method_single_405_witness :
    handleRequest [defaultRequestMiddleware "z9"] witnessHandlers
        [defaultResponseMiddleware] reqFoobar
      = [unhandledReply (defaultRequestMiddleware "z9" reqFoobar)] ∧
    (getHandler witnessHandlers (dispatchMethod (defaultRequestMiddleware "z9" reqFoobar))
        (defaultRequestMiddleware "z9" reqFoobar)).1 = none ∧
    (unhandledReply (defaultRequestMiddleware "z9" reqFoobar)).Destination
      = reqFoobar.Source ∧
    (unhandledReply (defaultRequestMiddleware "z9" reqFoobar)).Msg.Status = 405 ∧
    (unhandledReply (defaultRequestMiddleware "z9" reqFoobar)).Msg.Phrase
      = "Method Not Allowed" ∧
    (unhandledReply (defaultRequestMiddleware "z9" reqFoobar)).Msg.Payload = none :=
  C4_unregistered_method_single_405 "z9" witnessHandlers reqFoobar (by rfl)

end SimpleSip
